import Mathlib

/-!
Verification of the pycarplay repository core against its specification.

Shallow embedding of:
  * the protocol codec (`messages.py`): header encode/decode, AudioData parsing,
    `create_message` dispatch;
  * the audio ring buffer (`audio_player.py`): `playAudioData` producer write and
    the pull `_audio_callback`;
  * the transport driver read loop (`src/core/dongle_driver.py`): consecutive
    error counting and failure notification, plus the `send`/`start` guards;
  * the reconnection supervisor (`main.py`): `_handle_failure`,
    `_on_connection_failed`, `_attempt_reconnect`;
  * the session controller `start()` (`carplay_node.py` and
    `src/pycarplay/core/carplay_node.py`).

Bytes are modelled as `Nat` values below 256, buffers as `List Nat`,
32-bit little-endian fields via explicit base-256 arithmetic.  Python
`struct.error` / `ValueError` raised during parsing is modelled with `Except`.
-/

namespace PyCarPlay

/-! ## Protocol codec (messages.py) -/

/-- Little-endian 32-bit value from four bytes, as produced by
`struct.unpack` with a 4-byte little-endian unsigned format. -/
def u32 (a b c d : Nat) : Nat := a + 256 * b + 65536 * c + 16777216 * d

/-- Little-endian encoding of a 32-bit value into four bytes, as produced by
`struct.pack` with a 4-byte little-endian unsigned format. -/
def packU32LE (x : Nat) : List Nat :=
  [x % 256, x / 256 % 256, x / 65536 % 256, x / 16777216 % 256]

/-- Magic constant of `MessageHeader` (`MessageHeader.MAGIC = 0x55aa55aa`). -/
def MAGIC : Nat := 0x55aa55aa

/-- All numeric codes of the `MessageType` enum in `messages.py`. -/
def messageTypeCodes : List Nat :=
  [0x01, 0x02, 0x03, 0x04, 0x05, 0x06, 0x07, 0x08, 0x09, 0x0f, 0x15,
   0x0a, 0x0c, 0x0d, 0x0e, 0x12, 0x14, 0x17, 0x18, 0x19,
   0x23, 0x24, 0x25, 0x26, 0x2a, 0x99, 0xaa, 0xcc]

/-- Whether a raw 32-bit code is a member of the `MessageType` enum:
`MessageType(msg_type_raw)` succeeds exactly on these values. -/
def isKnownMessageType (t : Nat) : Bool := messageTypeCodes.contains t

/-- The expected type-check field: the source computes
`(msg_type_raw ^ -1) & 0xffffffff`, which for a 32-bit input equals
XOR with `0xffffffff`. -/
def expectedCheck (t : Nat) : Nat := Nat.xor t 0xffffffff

/-- Errors raised by `MessageHeader.from_buffer`: the first three are
`HeaderBuildError`, the last is the `ValueError` raised for a type code
outside the `MessageType` enum. -/
inductive HeaderError
  | invalidBufferSize (got : Nat)
  | invalidMagic (got : Nat)
  | invalidTypeCheck (got expected : Nat)
  | unknownMessageType (t : Nat)
  deriving DecidableEq, Repr

/-- Whether a `HeaderError` corresponds to a Python `HeaderBuildError`
(as opposed to the `ValueError` used for unknown message types). -/
def HeaderError.isHeaderBuildError : HeaderError → Bool
  | .invalidBufferSize _ => true
  | .invalidMagic _ => true
  | .invalidTypeCheck _ _ => true
  | .unknownMessageType _ => false

/-- Decoded message header: payload length and (known) message type code. -/
structure MessageHeader where
  length : Nat
  type : Nat
  deriving DecidableEq, Repr

/-- Embedding of `MessageHeader.from_buffer`: requires exactly 16 bytes,
validates the magic constant, validates the type-check field against
`(msg_type_raw ^ -1) & 0xffffffff`, then requires the type code to be a
member of the `MessageType` enum. -/
def MessageHeader.from_buffer (buffer : List Nat) : Except HeaderError MessageHeader :=
  match buffer with
  | [b0, b1, b2, b3, b4, b5, b6, b7, b8, b9, b10, b11, b12, b13, b14, b15] =>
    let magic := u32 b0 b1 b2 b3
    if magic ≠ MAGIC then .error (.invalidMagic magic)
    else
      let length := u32 b4 b5 b6 b7
      let msg_type_raw := u32 b8 b9 b10 b11
      let type_check := u32 b12 b13 b14 b15
      if type_check ≠ expectedCheck msg_type_raw then
        .error (.invalidTypeCheck type_check (expectedCheck msg_type_raw))
      else if ¬ isKnownMessageType msg_type_raw then
        .error (.unknownMessageType msg_type_raw)
      else .ok { length := length, type := msg_type_raw }
  | _ => .error (.invalidBufferSize buffer.length)

/-- Embedding of `MessageHeader.as_buffer`: magic, length, type and
type-check fields, each packed little-endian. -/
def MessageHeader.as_buffer (message_type : Nat) (byte_length : Nat) : List Nat :=
  packU32LE MAGIC ++ packU32LE byte_length ++
    packU32LE message_type ++ packU32LE (expectedCheck message_type)

/-! ### AudioData parsing (messages.py, `AudioData.__init__`) -/

/-- Signed byte, as decoded by `struct.unpack` of one little-endian
signed byte (format code b). -/
def signedByte (b : Nat) : Int := if b < 128 then (b : Int) else (b : Int) - 256

/-- Signed 16-bit little-endian sample, as decoded by `struct.unpack`
of format code h applied to the pair of bytes `b0 + 256 * b1`. -/
def signedWord (w : Nat) : Int := if w < 32768 then (w : Int) else (w : Int) - 65536

/-- Numeric values of the `AudioCommand` enum (`messages.py`), codes 1..17;
`AudioCommand(v)` succeeds exactly on these signed values. -/
def audioCommandCodes : List Int :=
  [1, 2, 3, 4, 5, 6, 7, 8, 9, 10, 11, 12, 13, 14, 15, 16, 17]

/-- PCM16LE decoding of a byte list: consecutive byte pairs become signed
16-bit samples, mirroring `struct.unpack` of `sample_count` little-endian
signed 16-bit values applied to `data[12:]`. -/
def pcm16 : List Nat → List Int
  | b0 :: b1 :: rest => signedWord (b0 + 256 * b1) :: pcm16 rest
  | _ => []

/-- Errors raised while constructing a message body.  `structError` models a
Python `struct.error` (a slice shorter than the format requires, including an
odd-length PCM payload); `valueError` models the `ValueError` raised by an
enum constructor applied to an unknown value. -/
inductive ParseError
  | structError
  | valueError
  deriving DecidableEq, Repr

/-- Payload of an `AudioData` message.  The source stores the three fields
`command`, `volume_duration` and `data`, of which exactly the populated one is
not `None`; the constructors mirror that exclusive choice. -/
inductive AudioPayload
  | command (c : Int)
  | volumeDuration (raw : Nat)
  | samples (l : List Int)
  deriving DecidableEq, Repr

/-- Decoded `AudioData` body.  `volume_raw` carries the raw little-endian
bits of the f32 `volume` field (float semantics are not needed by any claim,
only which payload field is populated). -/
structure AudioData where
  decode_type : Nat
  volume_raw : Nat
  audio_type : Nat
  payload : AudioPayload
  deriving DecidableEq, Repr

/-- Embedding of `AudioData.__init__`: a fixed 12-byte prefix
(u32 `decode_type`, f32 `volume`, u32 `audio_type`), then dispatch on the
remaining byte count `amount = len(data) - 12`:
1 remaining byte: signed command byte, which must be an `AudioCommand` value
(otherwise `ValueError`); 4 remaining bytes: f32 `volume_duration`;
otherwise: PCM16LE samples, where `struct.unpack` raises `struct.error` when
the remaining length is odd.  Fewer than 12 bytes make the prefix
`struct.unpack` calls raise `struct.error`. -/
def AudioData.init (data : List Nat) : Except ParseError AudioData :=
  match data with
  | d0 :: d1 :: d2 :: d3 :: d4 :: d5 :: d6 :: d7 :: d8 :: d9 :: d10 :: d11 :: rest =>
    let decode_type := u32 d0 d1 d2 d3
    let volume_raw := u32 d4 d5 d6 d7
    let audio_type := u32 d8 d9 d10 d11
    match rest with
    | [c] =>
      if audioCommandCodes.contains (signedByte c) then
        .ok { decode_type := decode_type, volume_raw := volume_raw,
              audio_type := audio_type, payload := .command (signedByte c) }
      else .error .valueError
    | [f0, f1, f2, f3] =>
      .ok { decode_type := decode_type, volume_raw := volume_raw,
            audio_type := audio_type, payload := .volumeDuration (u32 f0 f1 f2 f3) }
    | _ =>
      if rest.length % 2 = 0 then
        .ok { decode_type := decode_type, volume_raw := volume_raw,
              audio_type := audio_type, payload := .samples (pcm16 rest) }
      else .error .structError
  | _ => .error .structError

/-! ### Message dispatch (messages.py, `create_message`) -/

/-- Message union as dispatched by `create_message`.  Only the variants a
claim depends on carry a decoded body; the remaining constructors of the
source (VideoData, MediaData, the string and info messages, ...) are
abstracted as `other` tagged with the type code, since no claim concerns
their body parsing. -/
inductive Message
  | unplugged
  | audioData (a : AudioData)
  | other (typeCode : Nat)
  deriving DecidableEq, Repr

/-- Embedding of `create_message`: `Unplugged` needs no data; `HeartBeat`
yields `None`; missing or empty data yields `None`; the `AudioData` arm
constructs the body inside the try/except, so any constructor error yields
`None`; type codes outside the dispatch chain yield `None`.  Body parsing of
the remaining handled types is abstracted as succeeding (no claim depends on
those bodies). -/
def create_message (htype : Nat) (data : Option (List Nat)) : Option Message :=
  if htype = 0x04 then some .unplugged
  else if htype = 0xaa then none
  else match data with
    | none => none
    | some d =>
      if d.length = 0 then none
      else if htype = 0x07 then
        match AudioData.init d with
        | .ok a => some (.audioData a)
        | .error _ => none
      else if htype ∈ [0x06, 0x2a, 0x0a, 0x0d, 0x0c, 0x14, 0xcc, 0x08, 0x02,
                       0x0e, 0x18, 0x12, 0x23, 0x24, 0x26, 0x01, 0x19, 0x03] then
        some (.other htype)
      else none

/-! ## Audio ring buffer / player (audio_player.py, class `AudioPlayer`)

A buffer row (one frame across all channels) is abstracted as a single `Int`;
the claims concern cursor arithmetic, counters, flags and silence-vs-data,
never the per-channel sample layout.  The numpy reshape in `playAudioData`
(interleaved samples to rows) precedes the modelled locked section, so the
write operation takes the row list directly; the claims' incoming sample
count is the row count, matching the samples counted by
`_get_available_samples`.  Logging state (`_last_overflow_log`) only affects
prints and is omitted. -/

/-- State of the `AudioPlayer` ring buffer: fixed capacity, write/read
cursors, pre-buffering flag, pre-buffer threshold and statistics. -/
structure RingBuffer where
  buffer_size : Nat
  sample_rate : Nat
  buf : Nat → Int
  write_pos : Nat
  read_pos : Nat
  is_playing : Bool
  buffering : Bool
  min_buffer_samples : Nat
  underruns : Nat
  frames_received : Nat

/-- Embedding of `AudioPlayer._get_available_samples`. -/
def RingBuffer.available (s : RingBuffer) : Nat :=
  if s.read_pos ≤ s.write_pos then s.write_pos - s.read_pos
  else s.buffer_size - s.read_pos + s.write_pos

/-- Buffer-state reset performed by `AudioPlayer.start()` when the player is
not yet playing: cursors to zero, buffering on, buffer zeroed (stream
opening is abstracted as succeeding). -/
def RingBuffer.startReset (s : RingBuffer) : RingBuffer :=
  { s with write_pos := 0, read_pos := 0, buffering := true,
           buf := fun _ => 0, is_playing := true }

/-- Writes a row list at consecutive positions `pos, pos+1, ...`, mirroring
a numpy slice assignment on the ring buffer. -/
def writeSeq (buf : Nat → Int) (pos : Nat) (rows : List Int) : Nat → Int :=
  match rows with
  | [] => buf
  | v :: rest => writeSeq (fun j => if j = pos then v else buf j) (pos + 1) rest

/-- The `start()` call at the top of `playAudioData`: a stopped player is
started (resetting the buffer state), a playing player is left as is. -/
def RingBuffer.preWrite (s0 : RingBuffer) : RingBuffer :=
  if s0.is_playing then s0 else s0.startReset

/-- The locked ring-buffer write of `playAudioData`.
`free_space = buffer_size - available`; when the incoming row count exceeds
it, the read cursor advances by the overflow before the write; the write
itself has a no-wrap and a wrap branch followed by the write-cursor wrap
check.  `none` models the numpy shape-mismatch `ValueError` in the wrap
branch (only reachable when the incoming count exceeds
`2 * buffer_size - write_pos`), which the source catches, completing no
write. -/
def RingBuffer.writeLocked (s : RingBuffer) (audio_array : List Int) :
    Option RingBuffer :=
  let n := audio_array.length
  let free_space := s.buffer_size - s.available
  let s1 := if free_space < n then
      { s with read_pos := (s.read_pos + (n - free_space)) % s.buffer_size }
    else s
  if s1.write_pos + n ≤ s1.buffer_size then
    let w := s1.write_pos + n
    some { s1 with buf := writeSeq s1.buf s1.write_pos audio_array,
                   write_pos := if s1.buffer_size ≤ w then 0 else w,
                   frames_received := s1.frames_received + 1 }
  else
    let first_part := s1.buffer_size - s1.write_pos
    if n - first_part ≤ s1.buffer_size then
      let w := n - first_part
      some { s1 with
             buf := writeSeq (writeSeq s1.buf s1.write_pos (audio_array.take first_part)) 0
                      (audio_array.drop first_part),
             write_pos := if s1.buffer_size ≤ w then 0 else w,
             frames_received := s1.frames_received + 1 }
    else none

/-- Embedding of `AudioPlayer.playAudioData` from the point where the row
array is in hand: the leading `start()` call for a stopped player
(`RingBuffer.preWrite`), then the locked ring-buffer write
(`RingBuffer.writeLocked`). -/
def RingBuffer.playAudioData (s0 : RingBuffer) (audio_array : List Int) :
    Option RingBuffer :=
  s0.preWrite.writeLocked audio_array

/-- What the pull callback writes into `outdata`: either silence
(`outdata.fill(0)`) or copied buffer rows. -/
inductive CallbackOutput
  | silence (frames : Nat)
  | data (rows : List Int)
  deriving DecidableEq, Repr

/-- Rows `buf[lo:hi]` of the ring buffer, mirroring a numpy slice read. -/
def sliceRows (buf : Nat → Int) (lo hi : Nat) : List Int :=
  (List.range (hi - lo)).map (fun k => buf (lo + k))

/-- The `status.output_underflow` check at the top of `_audio_callback`,
incrementing the underrun counter when the host reports an output underflow. -/
def RingBuffer.statusBump (s0 : RingBuffer) (output_underflow : Bool) : RingBuffer :=
  if output_underflow then { s0 with underruns := s0.underruns + 1 } else s0

/-- The locked section of `_audio_callback` (everything under
`self._buffer_lock`), operating on the state after the status bump: the
buffering gate (silence while `available < min_buffer_samples`, otherwise
flip to playing and zero the underrun counter), the copy-out with
no-wrap/wrap branches and read-cursor wrap check, the emergency resync when
the pre-copy `available` exceeds `hard_max = 5 s`, and the underrun branch.
`int(rate * 1.5)` is embedded as `rate * 3 / 2` (exact for the sample rates
of `DECODE_TYPE_MAP`). -/
def RingBuffer.callbackLocked (s : RingBuffer) (frames : Nat) :
    RingBuffer × CallbackOutput :=
  let avail := s.available
  if s.buffering ∧ avail < s.min_buffer_samples then
    (s, .silence frames)
  else
    let s1 := if s.buffering then { s with buffering := false, underruns := 0 } else s
    if frames ≤ avail then
      let out :=
        if s1.read_pos + frames ≤ s1.buffer_size then
          sliceRows s1.buf s1.read_pos (s1.read_pos + frames)
        else
          sliceRows s1.buf s1.read_pos s1.buffer_size ++
            sliceRows s1.buf 0 (frames - (s1.buffer_size - s1.read_pos))
      let read1 :=
        if s1.read_pos + frames ≤ s1.buffer_size then s1.read_pos + frames
        else frames - (s1.buffer_size - s1.read_pos)
      let read2 := if s1.buffer_size ≤ read1 then 0 else read1
      let target_buffer := s1.sample_rate * 3 / 2
      let hard_max := s1.sample_rate * 5
      let read3 :=
        if hard_max < avail then (read2 + (avail - target_buffer)) % s1.buffer_size
        else read2
      ({ s1 with read_pos := read3 }, .data out)
    else
      (if s1.buffering = false then { s1 with underruns := s1.underruns + 1 } else s1,
       .silence frames)

/-- Embedding of `AudioPlayer._audio_callback`: the underflow status bump
(`RingBuffer.statusBump`), then the locked section
(`RingBuffer.callbackLocked`). -/
def RingBuffer.audio_callback (s0 : RingBuffer) (frames : Nat)
    (output_underflow : Bool) : RingBuffer × CallbackOutput :=
  (s0.statusBump output_underflow).callbackLocked frames

/-! ## Transport driver (src/core/dongle_driver.py, class `DongleDriver`) -/

/-- `DongleDriver.MAX_ERROR_COUNT`. -/
def MAX_ERROR_COUNT : Nat := 20

/-- What one iteration of `DongleDriver._read_loop` encounters, derived from
the source's exception arms: a parsed non-None message; a successful read
whose `create_message` returned `None` (e.g. HeartBeat); a `ValueError` from
`MessageHeader.from_buffer` for an unknown type code (skipped); a
`USBTimeoutError` (benign); a `USBError` carrying the device-disconnected
signature; any other `USBError`; a `HeaderBuildError`; an `OSError` overflow
whose endpoint flush succeeded (recoverable, no error-count increment); any
other `OSError` (including pipe errors and failed overflow recovery); any
other exception. -/
inductive ReadEvent
  | msgParsed
  | msgNone
  | unknownType
  | timeout
  | usbDisconnect
  | usbOther
  | headerError
  | overflowRecovered
  | osError
  | otherError
  deriving DecidableEq, Repr

/-- Observable state of the driver read loop: the consecutive error counter,
the running flag, the registered failure callbacks and the record of failure
callbacks invoked so far, plus a count of messages dispatched to message
subscribers. -/
structure DriverLoopState where
  error_count : Nat
  running : Bool
  failure_callbacks : List Nat
  notified : List Nat
  delivered : Nat
  deriving DecidableEq, Repr

/-- Embedding of one iteration of `DongleDriver._read_loop`: the loop body
first checks `error_count >= MAX_ERROR_COUNT` (clearing `_running` and
invoking every registered failure callback, consuming no USB read), then
processes what the read produced.  A parsed non-None message resets the
counter to zero and is dispatched; the device-disconnected signature clears
`_running` and invokes every failure callback; unknown-type headers,
timeouts, None messages and recovered overflows leave the counter unchanged;
every other USB error, header build error, OS error or generic exception
increments it. -/
def readIter (s : DriverLoopState) (e : ReadEvent) : DriverLoopState :=
  if ¬ s.running then s
  else if MAX_ERROR_COUNT ≤ s.error_count then
    { s with running := false, notified := s.notified ++ s.failure_callbacks }
  else match e with
    | .msgParsed => { s with error_count := 0, delivered := s.delivered + 1 }
    | .msgNone => s
    | .unknownType => s
    | .timeout => s
    | .overflowRecovered => s
    | .usbDisconnect =>
        { s with running := false, notified := s.notified ++ s.failure_callbacks }
    | .usbOther => { s with error_count := s.error_count + 1 }
    | .headerError => { s with error_count := s.error_count + 1 }
    | .osError => { s with error_count := s.error_count + 1 }
    | .otherError => { s with error_count := s.error_count + 1 }

/-- Events that are an I/O or parse error according to the claim's words
(spec: the counter "increments on any I/O or parse error").  Following the
spec's own description of unknown-type headers as a "header decode failure",
these are all failed reads and failed parses: USB errors other than the
device-disconnected escalation, header build errors, unknown-type header
failures, OS-level errors (recovered or not) and generic read-loop
exceptions. -/
def specIsIOorParseError : ReadEvent → Bool
  | .msgParsed => false
  | .msgNone => false
  | .timeout => false
  | .usbDisconnect => false
  | .unknownType => true
  | .usbOther => true
  | .headerError => true
  | .overflowRecovered => true
  | .osError => true
  | .otherError => true

/-- Outcome of `DongleDriver.send`: the guard `if not self.device: return
False`, a write attempt, or a raised `DriverStateError`. -/
inductive SendOutcome
  | returnedFalse
  | attemptedWrite
  | raisedDriverStateError
  deriving DecidableEq, Repr

/-- Whether the driver has a device set (`self.device` after `initialise`). -/
structure DriverHandle where
  device : Option Nat
  deriving DecidableEq, Repr

/-- Embedding of the call-sequence guard of `DongleDriver.send`: with no
device set it returns `False`; otherwise it serialises and writes (the USB
write itself is abstracted). -/
def DongleDriver.sendGuard (d : DriverHandle) : SendOutcome :=
  if d.device = none then .returnedFalse else .attemptedWrite

/-- Embedding of the call-sequence guard of `DongleDriver.start`: with no
device set it raises `DriverStateError` (the message is the source's
"No device set - call initialise first"); otherwise the initialization
sequence proceeds. -/
def DongleDriver.startGuard (d : DriverHandle) : SendOutcome :=
  if d.device = none then .raisedDriverStateError else .attemptedWrite

/-! ## Reconnection supervisor (main.py, class `MainController`) -/

/-- Status values assigned by the reconnection logic of `main.py`
(mirroring the `dongleStatus` string constants); `other` stands for every
status set outside this logic. -/
inductive MainStatus
  | failed
  | failedManual
  | reconnecting (attempt : Nat)
  | connected
  | other
  deriving DecidableEq, Repr

/-- Reconnection supervisor state: attempt counter, the pending single-shot
reconnect timer delay, the status, and the record of every delay passed to
`_reconnect_timer.start` so far. -/
structure MainState where
  reconnect_attempts : Nat
  timer : Option Nat
  status : MainStatus
  scheduled_delays : List Nat
  deriving DecidableEq, Repr

/-- `self._max_reconnect_attempts`. -/
def max_reconnect_attempts : Nat := 5

/-- Embedding of `_handle_failure` followed by the `connectionFailed` signal
into `_on_connection_failed`: the status becomes "Failed"; if attempts remain
below the maximum, `delay = min(5000 * 2 ** attempts, 30000)` is computed and
the single-shot reconnect timer is started with it, otherwise only a log line
is emitted. -/
def handleFailure (s : MainState) : MainState :=
  let s := { s with status := .failed }
  if s.reconnect_attempts < max_reconnect_attempts then
    let delay := min (5000 * 2 ^ s.reconnect_attempts) 30000
    { s with timer := some delay, scheduled_delays := s.scheduled_delays ++ [delay] }
  else s

/-- Embedding of `_attempt_reconnect` (the reconnect timer's slot): the
attempt counter increments; past the maximum the status becomes the terminal
"Failed - Manual reconnection needed" and nothing else happens, otherwise the
status shows the attempt and a disconnect-then-reconnect is performed (the
reconnect itself is abstracted). -/
def attemptReconnect (s : MainState) : MainState :=
  let a := s.reconnect_attempts + 1
  if max_reconnect_attempts < a then
    { s with reconnect_attempts := a, status := .failedManual }
  else
    { s with reconnect_attempts := a, status := .reconnecting a }

/-- Events driving the reconnection supervisor: a failure notification from
the CarPlay node, the single-shot reconnect timer firing (a no-op when no
timer is pending), and a successful `Plugged` (which resets the attempt
counter in `_handle_plugged`). -/
inductive MainEvent
  | failure
  | timerFire
  | plugged
  deriving DecidableEq, Repr

/-- One supervisor step. -/
def mainStep (s : MainState) : MainEvent → MainState
  | .failure => handleFailure s
  | .timerFire =>
      match s.timer with
      | some _ => attemptReconnect { s with timer := none }
      | none => s
  | .plugged => { s with reconnect_attempts := 0, status := .connected }

/-- A run of the supervisor over a list of events. -/
def mainRun (s : MainState) (events : List MainEvent) : MainState :=
  events.foldl mainStep s

/-- Initial supervisor state (`__init__` of `MainController`). -/
def mainInit : MainState :=
  { reconnect_attempts := 0, timer := none, status := .other, scheduled_delays := [] }

/-- Events of `n` consecutive failure/timer-fire cycles with no intervening
success: each failure notification is followed by its scheduled timer firing. -/
def failCycles : Nat → List MainEvent
  | 0 => []
  | n + 1 => failCycles n ++ [.failure, .timerFire]

/-! ## Session controller start (carplay_node.py) -/

/-- Whether one pass of the `start()` body (driver initialise, driver start,
arming the pairing timeout) raises an exception. -/
inductive StartAttempt
  | ok
  | raises
  deriving DecidableEq, Repr

/-- Observable result of a `start()` call: whether an exception escaped to
the caller, how many FAILURE notifications were emitted through `onmessage`,
and the returned value (`none` when the retry recursion is still running
after the supplied attempt outcomes). -/
structure StartResult where
  propagated : Bool
  failure_notifications : Nat
  returned : Option Bool
  deriving DecidableEq, Repr

/-- Embedding of `CarplayNode.start` from `src/carplay_node.py`: the body is
wrapped in try/except; on success it returns `True`; on any exception it
logs, sleeps 2 s and recursively calls itself, emitting no notification. -/
def carplayNodeStart : List StartAttempt → StartResult
  | [] => { propagated := false, failure_notifications := 0, returned := none }
  | .ok :: _ => { propagated := false, failure_notifications := 0, returned := some true }
  | .raises :: rest => carplayNodeStart rest

/-- Embedding of `CarplayNode.start` from
`src/src/pycarplay/core/carplay_node.py`: the same try/except, but on an
exception it emits one FAILURE notification via `_notify(MessageType.FAILURE)`
and returns `False`. -/
def pycarplayCoreStart : StartAttempt → StartResult
  | .ok => { propagated := false, failure_notifications := 0, returned := some true }
  | .raises => { propagated := false, failure_notifications := 1, returned := some false }

/-! ## Helper lemmas -/

theorem u32_pack (x : Nat) (h : x < 4294967296) :
    u32 (x % 256) (x / 256 % 256) (x / 65536 % 256) (x / 16777216 % 256) = x := by
  unfold u32; omega

theorem known_lt (t : Nat) (h : isKnownMessageType t = true) : t < 4294967296 := by
  simp [isKnownMessageType, messageTypeCodes, List.contains] at h
  rcases h with h | h
  · omega
  · rcases h with h | h | h | h | h | h | h | h | h | h | h | h | h | h | h | h | h
      | h | h | h | h | h | h | h | h | h | h <;> omega

/-! ## Claim C3: header encode/decode round trip -/

/-- C3: for every known message type code and every 32-bit payload length,
encoding a header with `MessageHeader.as_buffer` and decoding the resulting
16 bytes with `MessageHeader.from_buffer` succeeds and yields back exactly
the same type and length. -/
theorem C3_header_roundtrip (t len : Nat) (hknown : isKnownMessageType t = true)
    (hlen : len < 4294967296) :
    MessageHeader.from_buffer (MessageHeader.as_buffer t len) =
      .ok { length := len, type := t } := by
  have ht : t < 4294967296 := known_lt t hknown
  have hchk : expectedCheck t < 4294967296 :=
    Nat.xor_lt_two_pow (n := 32) ht (by norm_num)
  have hbuf : MessageHeader.as_buffer t len =
      [MAGIC % 256, MAGIC / 256 % 256, MAGIC / 65536 % 256, MAGIC / 16777216 % 256,
       len % 256, len / 256 % 256, len / 65536 % 256, len / 16777216 % 256,
       t % 256, t / 256 % 256, t / 65536 % 256, t / 16777216 % 256,
       expectedCheck t % 256, expectedCheck t / 256 % 256,
       expectedCheck t / 65536 % 256, expectedCheck t / 16777216 % 256] := rfl
  rw [hbuf]
  simp only [MessageHeader.from_buffer]
  rw [u32_pack len hlen, u32_pack t ht, u32_pack (expectedCheck t) hchk]
  have hmagic : u32 (MAGIC % 256) (MAGIC / 256 % 256) (MAGIC / 65536 % 256)
      (MAGIC / 16777216 % 256) = MAGIC := by decide
  rw [hmagic]
  simp [hknown]

/-- Witness for C3 at the AudioData type code and payload length 13. -/
theorem C3_header_roundtrip_witness :
    isKnownMessageType 0x07 = true ∧ (13 : Nat) < 4294967296 ∧
    MessageHeader.from_buffer (MessageHeader.as_buffer 0x07 13) =
      .ok { length := 13, type := 0x07 } :=
  ⟨by decide, by decide, C3_header_roundtrip 0x07 13 (by decide) (by decide)⟩

/-! ## Claim C4: type-check validation gate -/

/-- C4: for every 16-byte buffer, decoding succeeds only if the type-check
field equals the message type XOR `0xFFFFFFFF` masked to 32 bits; a buffer
with correct magic violating that equality is rejected with a
`HeaderBuildError` (`invalidTypeCheck`), and a buffer whose first four
little-endian bytes are not `0x55AA55AA` is rejected as well
(`invalidMagic`, also a `HeaderBuildError`). -/
theorem C4_header_type_check_gate
    (b0 b1 b2 b3 b4 b5 b6 b7 b8 b9 b10 b11 b12 b13 b14 b15 : Nat) :
    (∀ h : MessageHeader,
      MessageHeader.from_buffer
          [b0, b1, b2, b3, b4, b5, b6, b7, b8, b9, b10, b11, b12, b13, b14, b15] =
        .ok h →
      u32 b12 b13 b14 b15 = expectedCheck (u32 b8 b9 b10 b11))
    ∧ (u32 b0 b1 b2 b3 = MAGIC →
       u32 b12 b13 b14 b15 ≠ expectedCheck (u32 b8 b9 b10 b11) →
       MessageHeader.from_buffer
           [b0, b1, b2, b3, b4, b5, b6, b7, b8, b9, b10, b11, b12, b13, b14, b15] =
         .error (.invalidTypeCheck (u32 b12 b13 b14 b15)
                   (expectedCheck (u32 b8 b9 b10 b11)))
       ∧ HeaderError.isHeaderBuildError
           (.invalidTypeCheck (u32 b12 b13 b14 b15)
             (expectedCheck (u32 b8 b9 b10 b11))) = true)
    ∧ (u32 b0 b1 b2 b3 ≠ MAGIC →
       MessageHeader.from_buffer
           [b0, b1, b2, b3, b4, b5, b6, b7, b8, b9, b10, b11, b12, b13, b14, b15] =
         .error (.invalidMagic (u32 b0 b1 b2 b3))
       ∧ HeaderError.isHeaderBuildError (.invalidMagic (u32 b0 b1 b2 b3)) = true) := by
  refine ⟨?_, ?_, ?_⟩
  · intro h hok
    simp only [MessageHeader.from_buffer] at hok
    split_ifs at hok with h1 h2 h3
    exact not_not.mp h2
  · intro hm hc
    simp only [MessageHeader.from_buffer]
    rw [if_neg (by simpa using hm), if_pos hc]
    exact ⟨rfl, rfl⟩
  · intro hm
    simp only [MessageHeader.from_buffer]
    rw [if_pos hm]
    exact ⟨rfl, rfl⟩

/-- Witness for C4 on a HeartBeat header with a corrupted type-check field
and on a buffer with a corrupted magic field. -/
theorem C4_header_type_check_gate_witness :
    MessageHeader.from_buffer
        [0xaa, 0x55, 0xaa, 0x55, 0, 0, 0, 0, 0xaa, 0, 0, 0, 0x55, 0xff, 0xff, 0x7f] =
      .error (.invalidTypeCheck 0x7fffff55 0xffffff55) :=
  ((C4_header_type_check_gate 0xaa 0x55 0xaa 0x55 0 0 0 0 0xaa 0 0 0
      0x55 0xff 0xff 0x7f).2.1 (by decide) (by decide)).1

/-! ## Claim C5: AudioData payload dispatch (corrected)

The claim as stated fails: an odd remaining byte count of at least 3 does
not yield a PCM16LE sample array — `struct.unpack` raises `struct.error`
and the message is dropped.  Likewise a 1-byte payload whose command value
is outside the `AudioCommand` enum raises `ValueError` (see C10).  The
amended dispatch is proved below; exactly one payload interpretation per
constructed instance is structural in `AudioPayload`. -/

/-- C5 counterexample: an AudioData body with 3 remaining bytes after the
12-byte prefix raises `struct.error` instead of yielding a PCM16LE sample
array, refuting "any other remaining length yields a PCM16LE sample array". -/
theorem C5_audio_payload_dispatch_counterexample :
    AudioData.init [0, 0, 0, 0, 0, 0, 0, 0, 0, 0, 0, 0, 0, 0, 0] =
      .error .structError := rfl

/-- C5 (amended): after the 12-byte prefix, 1 remaining byte yields a
command code when the signed byte is an `AudioCommand` value and raises
`ValueError` otherwise; 4 remaining bytes yield the volume-duration field;
any other even remaining length yields a PCM16LE sample array; any other
odd remaining length raises `struct.error`.  Exactly one interpretation is
populated in every successful case. -/
theorem C5_audio_payload_dispatch (d0 d1 d2 d3 d4 d5 d6 d7 d8 d9 d10 d11 : Nat)
    (rest : List Nat) :
    (∀ c, rest = [c] → audioCommandCodes.contains (signedByte c) = true →
      AudioData.init (d0 :: d1 :: d2 :: d3 :: d4 :: d5 :: d6 :: d7 :: d8 :: d9 :: d10 :: d11 :: rest) =
        .ok { decode_type := u32 d0 d1 d2 d3, volume_raw := u32 d4 d5 d6 d7,
              audio_type := u32 d8 d9 d10 d11, payload := .command (signedByte c) })
    ∧ (∀ c, rest = [c] → audioCommandCodes.contains (signedByte c) = false →
      AudioData.init (d0 :: d1 :: d2 :: d3 :: d4 :: d5 :: d6 :: d7 :: d8 :: d9 :: d10 :: d11 :: rest) =
        .error .valueError)
    ∧ (∀ f0 f1 f2 f3, rest = [f0, f1, f2, f3] →
      AudioData.init (d0 :: d1 :: d2 :: d3 :: d4 :: d5 :: d6 :: d7 :: d8 :: d9 :: d10 :: d11 :: rest) =
        .ok { decode_type := u32 d0 d1 d2 d3, volume_raw := u32 d4 d5 d6 d7,
              audio_type := u32 d8 d9 d10 d11, payload := .volumeDuration (u32 f0 f1 f2 f3) })
    ∧ (rest.length ≠ 1 → rest.length ≠ 4 → rest.length % 2 = 0 →
      AudioData.init (d0 :: d1 :: d2 :: d3 :: d4 :: d5 :: d6 :: d7 :: d8 :: d9 :: d10 :: d11 :: rest) =
        .ok { decode_type := u32 d0 d1 d2 d3, volume_raw := u32 d4 d5 d6 d7,
              audio_type := u32 d8 d9 d10 d11, payload := .samples (pcm16 rest) })
    ∧ (rest.length ≠ 1 → rest.length ≠ 4 → rest.length % 2 = 1 →
      AudioData.init (d0 :: d1 :: d2 :: d3 :: d4 :: d5 :: d6 :: d7 :: d8 :: d9 :: d10 :: d11 :: rest) =
        .error .structError) := by
  refine ⟨?_, ?_, ?_, ?_, ?_⟩
  · rintro c rfl hc
    simp only [AudioData.init]
    rw [if_pos hc]
  · rintro c rfl hc
    simp only [AudioData.init]
    rw [if_neg (by rw [hc]; exact Bool.false_ne_true)]
  · rintro f0 f1 f2 f3 rfl
    simp [AudioData.init]
  · intro h1 h4 heven
    rcases rest with _ | ⟨a, _ | ⟨b, _ | ⟨c, _ | ⟨d, _ | ⟨e, tail⟩⟩⟩⟩⟩
    · simp [AudioData.init]
    · simp at h1
    · simp [AudioData.init]
    · simp [List.length] at heven
    · simp at h4
    · simp only [AudioData.init]
      rw [if_pos heven]
  · intro h1 h4 hodd
    rcases rest with _ | ⟨a, _ | ⟨b, _ | ⟨c, _ | ⟨d, _ | ⟨e, tail⟩⟩⟩⟩⟩
    · simp at hodd
    · simp at h1
    · simp [List.length] at hodd
    · simp only [AudioData.init]
      rw [if_neg (by omega)]
    · simp at h4
    · simp only [AudioData.init]
      rw [if_neg (by omega)]

/-- Witness for C5: a 13-byte body carrying command byte 8 (AudioSiriStart)
decodes to the command payload, and a 16-byte body decodes to the
volume-duration payload. -/
theorem C5_audio_payload_dispatch_witness :
    AudioData.init [1, 0, 0, 0, 0, 0, 0, 0, 2, 0, 0, 0, 8] =
      .ok { decode_type := 1, volume_raw := 0, audio_type := 2,
            payload := .command 8 } :=
  (C5_audio_payload_dispatch 1 0 0 0 0 0 0 0 2 0 0 0 [8]).1 8 rfl (by decide)

/-! ## Claim C10: unknown audio command bytes drop the whole message -/

/-- C10: a received AudioData body whose payload after the 12-byte prefix is
exactly one byte with a command value outside the `AudioCommand` enum makes
the constructor raise, and `create_message` (whose dispatch runs inside
try/except) returns `None`: the message is dropped, not delivered. -/
theorem C10_unknown_audio_command_dropped
    (d0 d1 d2 d3 d4 d5 d6 d7 d8 d9 d10 d11 b : Nat)
    (hb : audioCommandCodes.contains (signedByte b) = false) :
    AudioData.init (d0 :: d1 :: d2 :: d3 :: d4 :: d5 :: d6 :: d7 :: d8 :: d9 :: d10 :: d11 :: [b]) =
      .error .valueError
    ∧ create_message 0x07
        (some (d0 :: d1 :: d2 :: d3 :: d4 :: d5 :: d6 :: d7 :: d8 :: d9 :: d10 :: d11 :: [b])) =
      none := by
  have hinit : AudioData.init
      (d0 :: d1 :: d2 :: d3 :: d4 :: d5 :: d6 :: d7 :: d8 :: d9 :: d10 :: d11 :: [b]) =
      .error .valueError := by
    simp only [AudioData.init]
    rw [if_neg (by rw [hb]; exact Bool.false_ne_true)]
  refine ⟨hinit, ?_⟩
  simp [create_message, hinit]

/-- Witness for C10 at command byte 18, the first value past the enum. -/
theorem C10_unknown_audio_command_dropped_witness :
    audioCommandCodes.contains (signedByte 18) = false ∧
    create_message 0x07 (some [0, 0, 0, 0, 0, 0, 0, 0, 0, 0, 0, 0, 18]) = none :=
  ⟨by decide, (C10_unknown_audio_command_dropped 0 0 0 0 0 0 0 0 0 0 0 0 18 (by decide)).2⟩

/-! ## Claim C1: ring buffer overflow drop and available bound -/

theorem available_lt_size (s : RingBuffer) (hr : s.read_pos < s.buffer_size)
    (hw : s.write_pos < s.buffer_size) : s.available < s.buffer_size := by
  unfold RingBuffer.available; split_ifs <;> omega

theorem available_eq_mod (s : RingBuffer) (hr : s.read_pos < s.buffer_size)
    (hw : s.write_pos < s.buffer_size) :
    s.available = (s.write_pos + s.buffer_size - s.read_pos) % s.buffer_size := by
  unfold RingBuffer.available
  split_ifs with h
  · have hrw : s.write_pos + s.buffer_size - s.read_pos =
        (s.write_pos - s.read_pos) + s.buffer_size := by omega
    rw [hrw, Nat.add_mod_right, Nat.mod_eq_of_lt (by omega)]
  · rw [Nat.mod_eq_of_lt (by omega)]
    omega

theorem writeLocked_spec (t : RingBuffer) (rows : List Int) (s' : RingBuffer)
    (hsize : 0 < t.buffer_size) (hr : t.read_pos < t.buffer_size)
    (hw : t.write_pos < t.buffer_size)
    (hsome : t.writeLocked rows = some s') :
    s'.buffer_size = t.buffer_size
    ∧ s'.read_pos = (if t.buffer_size - t.available < rows.length
        then (t.read_pos + (rows.length - (t.buffer_size - t.available))) % t.buffer_size
        else t.read_pos)
    ∧ s'.read_pos < t.buffer_size
    ∧ s'.write_pos < t.buffer_size := by
  simp only [RingBuffer.writeLocked] at hsome
  by_cases hov : t.buffer_size - t.available < rows.length <;>
    simp only [hov, if_true, if_false, ite_true, ite_false] at hsome ⊢
  · split_ifs at hsome with h2 h3 h4 <;>
      simp only [Option.some.injEq] at hsome <;> subst hsome <;>
      refine ⟨rfl, rfl, Nat.mod_lt _ hsize, ?_⟩ <;> simp_all
  · split_ifs at hsome with h2 h3 h4 <;>
      simp only [Option.some.injEq] at hsome <;> subst hsome <;>
      refine ⟨rfl, rfl, hr, ?_⟩ <;> simp_all

theorem preWrite_buffer_size (s : RingBuffer) : s.preWrite.buffer_size = s.buffer_size := by
  unfold RingBuffer.preWrite RingBuffer.startReset
  split_ifs <;> rfl

theorem preWrite_wf (s : RingBuffer) (hsize : 0 < s.buffer_size)
    (hr : s.read_pos < s.buffer_size) (hw : s.write_pos < s.buffer_size) :
    s.preWrite.read_pos < s.buffer_size ∧ s.preWrite.write_pos < s.buffer_size := by
  unfold RingBuffer.preWrite RingBuffer.startReset
  split_ifs <;> exact ⟨by assumption, by assumption⟩

/-- C1: for every well-formed ring-buffer state and every write via
`playAudioData` that completes: when the incoming row count exceeds
`free_space = capacity - available`, the read cursor of the written state
advances by exactly `overflow = incoming - free_space` (modulo the capacity)
from the state the locked write starts from (`preWrite`, the state after the
implicit `start()` call), dropping exactly that many oldest rows before the
write; otherwise the read cursor is unchanged.  After the write, `available`
equals `(write_pos - read_pos) mod capacity` (written over `Nat` as
`(write_pos + capacity - read_pos) mod capacity`, hence never negative) and
never exceeds the capacity. -/
theorem C1_ring_buffer_overflow (s : RingBuffer) (rows : List Int) (s' : RingBuffer)
    (hsize : 0 < s.buffer_size)
    (hr : s.read_pos < s.buffer_size) (hw : s.write_pos < s.buffer_size)
    (hsome : s.playAudioData rows = some s') :
    (s.buffer_size - s.preWrite.available < rows.length →
      s'.read_pos = (s.preWrite.read_pos +
        (rows.length - (s.buffer_size - s.preWrite.available))) % s.buffer_size)
    ∧ (rows.length ≤ s.buffer_size - s.preWrite.available →
      s'.read_pos = s.preWrite.read_pos)
    ∧ s'.available = (s'.write_pos + s.buffer_size - s'.read_pos) % s.buffer_size
    ∧ s'.available ≤ s.buffer_size := by
  have hbs := preWrite_buffer_size s
  obtain ⟨hpr, hpw⟩ := preWrite_wf s hsize hr hw
  simp only [RingBuffer.playAudioData] at hsome
  obtain ⟨hb', hrd, hrlt, hwlt⟩ :=
    writeLocked_spec s.preWrite rows s' (by omega) (by omega) (by omega) hsome
  rw [hbs] at hrd hrlt hwlt hb'
  refine ⟨?_, ?_, ?_, ?_⟩
  · intro hov
    rw [hrd, if_pos hov]
  · intro hle
    rw [hrd, if_neg (by omega)]
  · rw [available_eq_mod s' (by omega) (by omega), hb']
  · have := available_lt_size s' (by omega) (by omega)
    omega

/-- A small concrete player state used by the ring-buffer witnesses. -/
def exRing : RingBuffer :=
  { buffer_size := 4, sample_rate := 44100, buf := fun _ => 0,
    write_pos := 0, read_pos := 0, is_playing := true, buffering := true,
    min_buffer_samples := 2, underruns := 0, frames_received := 0 }

/-- The state produced by writing five rows into `exRing` (one row of
overflow past the capacity of four). -/
def exWritten : RingBuffer :=
  { exRing with buf := writeSeq (writeSeq exRing.buf 0 [1, 2, 3, 4]) 0 [5],
                read_pos := 1, write_pos := 1, frames_received := 1 }

/-- Witness for C1: writing five rows into the empty four-row buffer drops
one oldest row (read cursor 0 to 1) and leaves `available` within bounds. -/
theorem C1_ring_buffer_overflow_witness :
    0 < exRing.buffer_size ∧
    exRing.playAudioData [1, 2, 3, 4, 5] = some exWritten ∧
    exWritten.read_pos = (exRing.preWrite.read_pos +
      ((5 : Nat) - (exRing.buffer_size - exRing.preWrite.available))) % exRing.buffer_size ∧
    exWritten.available ≤ exRing.buffer_size := by
  have h := C1_ring_buffer_overflow exRing [1, 2, 3, 4, 5] exWritten
    (by decide) (by decide) (by decide) rfl
  exact ⟨by decide, rfl, h.1 (by decide), h.2.2.2⟩

/-! ## Claim C6: buffering gate of the pull callback -/

theorem callbackLocked_buffering_silence (u : RingBuffer) (frames : Nat)
    (hb : u.buffering = true) (hlt : u.available < u.min_buffer_samples) :
    u.callbackLocked frames = (u, .silence frames) := by
  unfold RingBuffer.callbackLocked
  rw [if_pos ⟨hb, hlt⟩]

theorem callbackLocked_flip (u : RingBuffer) (frames : Nat)
    (hb : u.buffering = true) (hmin : u.min_buffer_samples ≤ u.available) :
    (u.callbackLocked frames).1.buffering = false
    ∧ (u.callbackLocked frames).1.underruns = (if frames ≤ u.available then 0 else 1) := by
  simp only [RingBuffer.callbackLocked, hb, eq_self_iff_true, true_and, if_true, ite_true]
  rw [if_neg (by omega)]
  by_cases hframes : frames ≤ u.available
  · simp [hframes]
  · simp [hframes]

theorem statusBump_available (s : RingBuffer) (uf : Bool) :
    (s.statusBump uf).available = s.available := by
  unfold RingBuffer.statusBump; split_ifs <;> rfl

theorem statusBump_buffering (s : RingBuffer) (uf : Bool) :
    (s.statusBump uf).buffering = s.buffering := by
  unfold RingBuffer.statusBump; split_ifs <;> rfl

theorem statusBump_min (s : RingBuffer) (uf : Bool) :
    (s.statusBump uf).min_buffer_samples = s.min_buffer_samples := by
  unfold RingBuffer.statusBump; split_ifs <;> rfl

/-- C6: while the player is buffering, every pull whose available count is
below `min_buffer_samples` outputs silence and consumes nothing (the state is
exactly the status-bumped input, so cursors and the buffering flag are
untouched); the first pull with `available >= min_buffer_samples` flips the
state to playing and resets the underrun counter to zero (the counter ends
at zero whenever the pull can also serve the requested frames, and at one
when the same pull immediately underruns after the reset). -/
theorem C6_buffering_gate (s : RingBuffer) (frames : Nat) (uf : Bool)
    (hb : s.buffering = true) :
    (s.available < s.min_buffer_samples →
      s.audio_callback frames uf = (s.statusBump uf, .silence frames))
    ∧ (s.min_buffer_samples ≤ s.available →
      (s.audio_callback frames uf).1.buffering = false
      ∧ (s.audio_callback frames uf).1.underruns =
          (if frames ≤ s.available then 0 else 1)) := by
  constructor
  · intro hlt
    exact callbackLocked_buffering_silence (s.statusBump uf) frames
      (by rw [statusBump_buffering, hb])
      (by rw [statusBump_available, statusBump_min]; exact hlt)
  · intro hmin
    have h := callbackLocked_flip (s.statusBump uf) frames
      (by rw [statusBump_buffering, hb])
      (by rw [statusBump_available, statusBump_min]; exact hmin)
    rw [statusBump_available] at h
    exact h

/-- Witness for C6: on `exRing` (threshold two), a pull with one available
row outputs silence untouched, and after two rows arrive a two-frame pull
flips the state to playing with a zeroed underrun counter. -/
theorem C6_buffering_gate_witness :
    (({ exRing with write_pos := 1 } : RingBuffer).audio_callback 2 false =
      (({ exRing with write_pos := 1 } : RingBuffer).statusBump false, .silence 2))
    ∧ (({ exRing with write_pos := 2 } : RingBuffer).audio_callback 2 false).1.buffering = false
    ∧ (({ exRing with write_pos := 2 } : RingBuffer).audio_callback 2 false).1.underruns = 0 := by
  have h1 := (C6_buffering_gate { exRing with write_pos := 1 } 2 false rfl).1 (by decide)
  have h2 := (C6_buffering_gate { exRing with write_pos := 2 } 2 false rfl).2 (by decide)
  refine ⟨h1, h2.1, ?_⟩
  rw [h2.2]
  decide

/-! ## Claim C2: read-loop error counter (corrected)

The claim as stated fails: not every I/O or parse error increments the
consecutive-error counter.  An unknown-type header is a parse (header
decode) failure, yet the loop skips it with `continue`, leaving the counter
unchanged; timeouts and successfully recovered endpoint overflows are
likewise I/O errors that do not increment.  The amended behaviour is proved
in full below. -/

/-- Concrete loop state used by the C2 counterexample. -/
def exDriverState : DriverLoopState :=
  { error_count := 5, running := true, failure_callbacks := [0],
    notified := [], delivered := 0 }

/-- C2 counterexample: an unknown-message-type header decode failure is an
I/O-or-parse error in the claim's sense, yet a read-loop iteration hitting
it leaves the consecutive error counter unchanged (5, not 6). -/
theorem C2_error_counter_counterexample :
    specIsIOorParseError ReadEvent.unknownType = true ∧
    (readIter exDriverState ReadEvent.unknownType).error_count = 5 ∧
    ¬ (readIter exDriverState ReadEvent.unknownType).error_count =
        exDriverState.error_count + 1 := by decide

/-- C2 (amended): in a running read loop below the threshold, the counter
increments exactly on non-disconnect USB errors, header build errors,
OS-level errors and generic exceptions; it resets to zero on every parsed
non-None message; unknown-type headers, timeouts, None messages and
recovered overflows leave the state unchanged; the device-disappeared
signature alone stops the loop below the threshold, invoking every failure
callback; and once the counter has reached `MAX_ERROR_COUNT = 20`, the next
iteration stops the loop and invokes every failure callback regardless of
the event.  These are the only two ways the loop declares the driver dead. -/
theorem C2_error_counter (s : DriverLoopState) (e : ReadEvent)
    (hrun : s.running = true) :
    (MAX_ERROR_COUNT ≤ s.error_count →
      readIter s e =
        { s with running := false, notified := s.notified ++ s.failure_callbacks })
    ∧ (s.error_count < MAX_ERROR_COUNT →
      ((e = .usbOther ∨ e = .headerError ∨ e = .osError ∨ e = .otherError) →
        readIter s e = { s with error_count := s.error_count + 1 })
      ∧ (e = .msgParsed →
        readIter s e = { s with error_count := 0, delivered := s.delivered + 1 })
      ∧ ((e = .msgNone ∨ e = .unknownType ∨ e = .timeout ∨ e = .overflowRecovered) →
        readIter s e = s)
      ∧ ((readIter s e).running = false ↔ e = .usbDisconnect)
      ∧ (e = .usbDisconnect →
        readIter s e =
          { s with running := false, notified := s.notified ++ s.failure_callbacks })) := by
  constructor
  · intro hge
    unfold readIter
    rw [if_neg (by simp [hrun]), if_pos hge]
  · intro hlt
    refine ⟨?_, ?_, ?_, ?_, ?_⟩
    · rintro (rfl | rfl | rfl | rfl) <;>
        · unfold readIter
          rw [if_neg (by simp [hrun]), if_neg (by omega)]
    · rintro rfl
      unfold readIter
      rw [if_neg (by simp [hrun]), if_neg (by omega)]
    · rintro (rfl | rfl | rfl | rfl) <;>
        · unfold readIter
          rw [if_neg (by simp [hrun]), if_neg (by omega)]
    · unfold readIter
      rw [if_neg (by simp [hrun]), if_neg (by omega)]
      cases e <;> simp [hrun]
    · rintro rfl
      unfold readIter
      rw [if_neg (by simp [hrun]), if_neg (by omega)]

/-- Witness for C2 at concrete states: a header build error increments the
counter from 5 to 6, and an iteration entered with the counter at the
threshold stops the loop and notifies the registered failure callback even
on a benign timeout. -/
theorem C2_error_counter_witness :
    readIter exDriverState ReadEvent.headerError =
      { exDriverState with error_count := 6 } ∧
    readIter { exDriverState with error_count := 20 } ReadEvent.timeout =
      { exDriverState with error_count := 20, running := false, notified := [0] } := by
  have h1 := ((C2_error_counter exDriverState ReadEvent.headerError rfl).2
    (by decide)).1 (Or.inr (Or.inl rfl))
  have h2 := (C2_error_counter { exDriverState with error_count := 20 }
    ReadEvent.timeout rfl).1 (by decide)
  exact ⟨h1, h2⟩

/-! ## Claim C7: reconnection backoff (corrected)

The scheduled delays do follow `min(5000 * 2 ^ n, 30000)` for n = 0..4, but
the failure after the fifth attempt does not produce the terminal
"manual reconnection required" status: `_handle_failure` sets the status to
"Failed" and `_on_connection_failed` only logs once the attempt counter has
reached the maximum, never starting the timer again — and
`_attempt_reconnect`, the only place that sets the terminal status (when the
counter would exceed the maximum), can no longer fire. -/

/-- C7 counterexample: running six consecutive failure notifications (each
scheduled attempt firing before the next failure) yields exactly the five
backoff delays and ends with status "Failed", not the terminal
"Failed - Manual reconnection needed" status the claim requires. -/
theorem C7_reconnect_backoff_counterexample :
    (mainRun mainInit (failCycles 5 ++ [MainEvent.failure])).scheduled_delays =
      [5000, 10000, 20000, 30000, 30000] ∧
    (mainRun mainInit (failCycles 5 ++ [MainEvent.failure])).status = .failed ∧
    (mainRun mainInit (failCycles 5 ++ [MainEvent.failure])).status ≠ .failedManual := by
  decide

theorem mainRun_append (s : MainState) (a b : List MainEvent) :
    mainRun s (a ++ b) = mainRun (mainRun s a) b :=
  List.foldl_append _ _ _ _

theorem failCycles_state (k : Nat) (hk : k ≤ max_reconnect_attempts) :
    mainRun mainInit (failCycles k) =
      { reconnect_attempts := k, timer := none,
        status := if k = 0 then .other else .reconnecting k,
        scheduled_delays := (List.range k).map (fun i => min (5000 * 2 ^ i) 30000) } := by
  induction k with
  | zero => rfl
  | succ k ih =>
    have hk' : k ≤ max_reconnect_attempts := by omega
    have hklt : k < max_reconnect_attempts := by
      simp [max_reconnect_attempts] at hk ⊢; omega
    rw [show failCycles (k + 1) = failCycles k ++ [.failure, .timerFire] from rfl,
      mainRun_append, ih hk']
    simp only [mainRun, List.foldl, mainStep, handleFailure, attemptReconnect]
    rw [if_pos hklt]
    simp only [List.range_succ, List.map_append, List.map]
    rw [if_neg (by omega)]
    simp

/-- C7 (amended): for n = 0..4 the n-th scheduled reconnection delay equals
`min(5000 * 2 ^ n, 30000)` ms, and after the fifth attempt every further
consecutive failure notification schedules nothing, leaves the attempt
counter at five and the status at "Failed"; the terminal
"manual reconnection required" status is never produced on this path. -/
theorem C7_reconnect_backoff (n m : Nat) (hn : n ≤ max_reconnect_attempts) :
    (mainRun mainInit (failCycles n)).scheduled_delays =
      (List.range n).map (fun i => min (5000 * 2 ^ i) 30000)
    ∧ mainRun mainInit (failCycles max_reconnect_attempts ++
          List.replicate (m + 1) MainEvent.failure) =
        { reconnect_attempts := max_reconnect_attempts, timer := none,
          status := .failed,
          scheduled_delays :=
            (List.range max_reconnect_attempts).map (fun i => min (5000 * 2 ^ i) 30000) } := by
  constructor
  · rw [failCycles_state n hn]
  · rw [mainRun_append, failCycles_state max_reconnect_attempts le_rfl]
    induction m with
    | zero => decide
    | succ m ih =>
      rw [List.replicate_succ', mainRun_append, ih]
      decide

/-- Witness for C7 with all five cycles run and one further failure. -/
theorem C7_reconnect_backoff_witness :
    (mainRun mainInit (failCycles 5)).scheduled_delays =
      (List.range 5).map (fun i => min (5000 * 2 ^ i) 30000) ∧
    mainRun mainInit (failCycles max_reconnect_attempts ++
        List.replicate 1 MainEvent.failure) =
      { reconnect_attempts := max_reconnect_attempts, timer := none,
        status := .failed,
        scheduled_delays :=
          (List.range max_reconnect_attempts).map (fun i => min (5000 * 2 ^ i) 30000) } :=
  ⟨(C7_reconnect_backoff 5 0 (by decide)).1, (C7_reconnect_backoff 5 0 (by decide)).2⟩

/-! ## Claim C8: start() exception handling (corrected)

Both `start()` variants swallow exceptions, but the one the claim cites
(`src/carplay_node.py`) reports no failure notification: its except arm
sleeps two seconds and recursively retries the whole sequence, emitting
nothing through `onmessage`.  Only the `src/src/pycarplay/core`
variant notifies FAILURE and returns False. -/

/-- C8 counterexample: a `start()` call of the cited `src/carplay_node.py`
variant whose first (and only supplied) attempt raises propagates nothing
but also emits zero failure notifications, refuting "the failure is
reported via a failure notification that the caller can observe". -/
theorem C8_start_failure_counterexample :
    (carplayNodeStart [StartAttempt.raises]).propagated = false ∧
    (carplayNodeStart [StartAttempt.raises]).failure_notifications = 0 := by decide

/-- C8 (amended): no exception raised during the start sequence ever
propagates to the caller of either variant; the cited `src/carplay_node.py`
variant retries the sequence indefinitely without emitting any failure
notification, while the `src/src/pycarplay/core/carplay_node.py` variant
reports the failure through one FAILURE notification and returns False. -/
theorem C8_start_no_propagation (attempts : List StartAttempt) :
    (carplayNodeStart attempts).propagated = false
    ∧ (carplayNodeStart attempts).failure_notifications = 0
    ∧ pycarplayCoreStart .raises =
        { propagated := false, failure_notifications := 1, returned := some false } := by
  induction attempts with
  | nil => exact ⟨rfl, rfl, rfl⟩
  | cons a rest ih =>
    cases a
    · exact ⟨rfl, rfl, rfl⟩
    · exact ⟨ih.1, ih.2.1, rfl⟩

/-! ## Claim C9: send before initialise (corrected)

`DongleDriver.send` with no device set returns `False` silently
(`if not self.device: return False`); it does not raise.  The
`DriverStateError` for a missing device is raised by `DongleDriver.start`
("No device set - call initialise first") and by `initialise` itself when no
compatible device is found. -/

/-- C9 counterexample: calling the send guard with no device set returns
`False` instead of raising `DriverStateError`. -/
theorem C9_send_before_initialise_counterexample :
    DongleDriver.sendGuard { device := none } = SendOutcome.returnedFalse ∧
    DongleDriver.sendGuard { device := none } ≠ SendOutcome.raisedDriverStateError := by
  decide

/-- C9 (amended): with no device set, `send` silently returns `False`
(the invalid call sequence is absorbed, not surfaced), while `start` is the
operation that surfaces the missing-initialise state immediately as a
`DriverStateError`. -/
theorem C9_send_before_initialise (d : DriverHandle) (h : d.device = none) :
    DongleDriver.sendGuard d = SendOutcome.returnedFalse ∧
    DongleDriver.startGuard d = SendOutcome.raisedDriverStateError := by
  rw [DongleDriver.sendGuard, DongleDriver.startGuard]
  rw [if_pos h, if_pos h]
  exact ⟨rfl, rfl⟩

/-- Witness for C9 at the uninitialised driver handle. -/
theorem C9_send_before_initialise_witness :
    DongleDriver.sendGuard { device := none } = SendOutcome.returnedFalse ∧
    DongleDriver.startGuard { device := none } = SendOutcome.raisedDriverStateError :=
  C9_send_before_initialise { device := none } rfl

end PyCarPlay
